import Mathlib

/-!
Verification of the natural-language specification of the `hello-world`
C++ tutorial repository against its sources.

The repository is a corpus of 34 independent single-file example programs.
Most claims are repository-level facts (line counts, catch clauses, global
variables, documented compile commands, lock-acquisition calls); those are
settled over a transcription of the relevant per-file facts into Lean data.
The behavioural claims about `std_shared_timed_mutex.cpp`, `std_thread.cpp`
and `std_filesystem.cpp` are settled over small operational models of the
relevant functions, translated from the sources.
-/

namespace HelloWorldCpp

/-- A `g++`/`clang++` invocation documented in a file's trailing comment:
compiler, `-std=c++NN` level, input files in order, `-o` output name, and
any further flags appearing on the command line. -/
structure CompileCmd where
  compiler : String
  std : Nat
  inputs : List String
  output : String
  extraFlags : List String
deriving DecidableEq

/-- Per-file facts transcribed from one source file of the repository:
path, `wc -l` line count, whether `main` uses `argc`/`argv`, whether the
program reads configuration or standard input, the C++20 modules it
imports, the names of namespace-scope or static-member mutable variables
it defines, whether it creates/modifies/deletes files or directories,
whether it writes to `std::cerr`, and the `g++` commands of its trailing
comment. -/
structure SourceFile where
  name : String
  dir : String
  lineCount : Nat
  usesArgv : Bool
  readsConfig : Bool
  moduleImports : List String
  globalMutables : List String
  mutatesFilesystem : Bool
  writesStderr : Bool
  trailingCompile : List CompileCmd
deriving DecidableEq

/-- Shorthand for the common case: a file with no module imports, no
mutable globals, no filesystem access, and a single documented
`g++ -std=c++NN <file>.cpp -o <name> <flags>` invocation. -/
def plainFile (dir name : String) (lineCount std : Nat) (output : String)
    (extraFlags : List String) : SourceFile :=
  { name := name, dir := dir, lineCount := lineCount,
    usesArgv := false, readsConfig := false,
    moduleImports := [], globalMutables := [],
    mutatesFilesystem := false, writesStderr := false,
    trailingCompile := [⟨"g++", std, [name], output, extraFlags⟩] }

/-- The 34 source files of the repository, transcribed. -/
def repoFiles : List SourceFile :=
  [ plainFile "cpp11/core_language" "auto.cpp" 46 11 "auto_example" [],
    plainFile "cpp11/core_language" "enum_class.cpp" 149 11 "enum_class_example" [],
    plainFile "cpp11/core_language" "initializer_lists.cpp" 185 11 "initializer_lists_example" [],
    plainFile "cpp11/core_language" "lambda_expressions.cpp" 126 11 "lambda_example" [],
    plainFile "cpp11/core_language" "nullptr.cpp" 85 11 "nullptr_example" [],
    plainFile "cpp11/core_language" "override_final.cpp" 167 11 "override_final_example" [],
    plainFile "cpp11/core_language" "range_based_for_loop.cpp" 101 11 "range_for_example" [],
    plainFile "cpp11/core_language" "rvalue_references_move_semantics.cpp" 251 11 "move_semantics_example" [],
    plainFile "cpp11/standard_library" "smart_pointers.cpp" 277 11 "smart_pointers_example" [],
    plainFile "cpp11/standard_library" "std_chrono.cpp" 218 11 "std_chrono_example" [],
    plainFile "cpp11/standard_library" "std_regex.cpp" 216 11 "std_regex_example" [],
    plainFile "cpp11/standard_library" "std_thread.cpp" 200 11 "std_thread_example" ["-pthread"],
    plainFile "cpp11/standard_library" "std_tuple.cpp" 209 11 "std_tuple_example" [],
    plainFile "cpp14/core_language" "binary_literals.cpp" 108 14 "binary_literals_example" [],
    plainFile "cpp14/core_language" "generic_lambdas.cpp" 126 14 "generic_lambdas_example" [],
    { plainFile "cpp14/core_language" "return_type_deduction.cpp" 170 14
        "return_type_deduction_example" [] with
      globalMutables := ["global_var", "my_vector"] },
    plainFile "cpp14/standard_library" "std_make_unique.cpp" 158 14 "std_make_unique_example" [],
    plainFile "cpp14/standard_library" "std_shared_timed_mutex.cpp" 195 14
      "shared_timed_mutex_example" ["-pthread"],
    plainFile "cpp17/core_language" "if_constexpr.cpp" 134 17 "if_constexpr_example" [],
    { plainFile "cpp17/core_language" "inline_variables.cpp" 171 17
        "inline_variables_example" [] with
      globalMutables := ["MyClassWithInlineStatic::static_double",
        "MyClassWithInlineStatic::static_string", "SharedGlobals::global_counter"] },
    { plainFile "cpp17/core_language" "nested_namespaces.cpp" 151 17
        "nested_namespaces_example" [] with
      globalMutables := ["A::B::C::D::deep_value"] },
    plainFile "cpp17/core_language" "structured_bindings.cpp" 175 17 "structured_bindings_example" [],
    plainFile "cpp17/standard_library" "parallel_algorithms.cpp" 239 17
      "parallel_algorithms_example" ["-pthread", "-TBB"],
    plainFile "cpp17/standard_library" "std_any.cpp" 215 17 "std_any_example" [],
    { plainFile "cpp17/standard_library" "std_filesystem.cpp" 236 17
        "filesystem_example" ["-lstdc++fs"] with
      mutatesFilesystem := true, writesStderr := true },
    plainFile "cpp17/standard_library" "std_optional.cpp" 205 17 "std_optional_example" [],
    plainFile "cpp17/standard_library" "std_variant.cpp" 203 17 "std_variant_example" [],
    plainFile "cpp20/core_language" "concepts.cpp" 249 20 "concepts_example" [],
    { name := "modules_basic_usage.cpp", dir := "cpp20/core_language", lineCount := 94,
      usesArgv := false, readsConfig := false,
      moduleImports := ["math_operations"], globalMutables := [],
      mutatesFilesystem := false, writesStderr := false,
      trailingCompile :=
        [⟨"g++", 20, ["math_module.cppm"], "math_operations.gcm",
          ["-fmodules-ts", "--precompile"]⟩,
         ⟨"g++", 20, ["math_operations.gcm", "modules_basic_usage.cpp"],
          "modules_example", ["-fmodules-ts"]⟩] },
    plainFile "cpp20/core_language" "ranges.cpp" 251 20 "ranges_example" [],
    plainFile "cpp20/core_language" "three_way_comparison.cpp" 162 20 "three_way_comparison_example" [],
    plainFile "cpp20/standard_library" "std_format.cpp" 203 20 "std_format_example" [],
    plainFile "cpp20/standard_library" "std_latch.cpp" 172 20 "std_latch_example" ["-pthread"],
    plainFile "cpp20/standard_library" "std_span.cpp" 219 20 "std_span_example" [] ]

/-- A file is self-contained when it imports no C++20 module (all its
`#include`s are standard-library headers; no file in the repository
includes another repository file). -/
def selfContained (f : SourceFile) : Prop := f.moduleImports = []

instance (f : SourceFile) : Decidable (selfContained f) := by
  unfold selfContained; infer_instance

/-- A compile command is a single-file invocation for `f` of the documented
form: `g++ -std=c++NN <file>.cpp -o <name>` (possibly with extra flags). -/
def singleFileCmd (f : SourceFile) (c : CompileCmd) : Prop :=
  c.compiler = "g++" ∧ c.inputs = [f.name]

instance (f : SourceFile) (c : CompileCmd) : Decidable (singleFileCmd f c) := by
  unfold singleFileCmd; infer_instance

/-- One `catch` clause of the repository, transcribed: file, line of the
`catch`, caught exception type, whether the clause sits inside that file's
`main`, and what its handler body does — prints `e.what()`, prints
`e.code()`, branches on `e.code()`, prints only fixed text, rethrows, or
performs recovery beyond printing. -/
structure CatchClause where
  file : String
  line : Nat
  exnType : String
  inMain : Bool
  printsWhat : Bool
  printsCode : Bool
  branchesOnCode : Bool
  rethrows : Bool
  recovers : Bool
deriving DecidableEq

/-- Every `catch` clause appearing in the repository, transcribed. -/
def catchClauses : List CatchClause :=
  [ ⟨"std_regex.cpp", 121, "std::regex_error", true, true, true, true, false, false⟩,
    ⟨"std_variant.cpp", 83, "std::bad_variant_access", true, true, false, false, false, false⟩,
    ⟨"std_any.cpp", 70, "std::bad_any_cast", true, true, false, false, false, false⟩,
    ⟨"std_any.cpp", 78, "std::bad_any_cast", true, true, false, false, false, false⟩,
    ⟨"std_any.cpp", 85, "std::bad_any_cast", true, true, false, false, false, false⟩,
    ⟨"std_any.cpp", 93, "std::bad_any_cast", true, true, false, false, false, false⟩,
    ⟨"std_optional.cpp", 74, "std::bad_optional_access", true, true, false, false, false, false⟩,
    ⟨"std_filesystem.cpp", 101, "std::filesystem::filesystem_error", true, false, false, false, false, false⟩,
    ⟨"std_filesystem.cpp", 105, "std::filesystem::filesystem_error", true, true, false, false, false, false⟩,
    ⟨"std_filesystem.cpp", 131, "std::filesystem::filesystem_error", true, true, false, false, false, false⟩,
    ⟨"std_format.cpp", 122, "std::format_error", true, true, false, false, false, false⟩ ]

/-- The six standard-library exception types named by the specification. -/
def specExnTypes : List String :=
  [ "std::regex_error", "std::bad_any_cast", "std::bad_variant_access",
    "std::bad_optional_access", "std::format_error",
    "std::filesystem::filesystem_error" ]

/-- The handler does nothing but print the exception's message: it prints
`e.what()` and nothing else exception-derived, does not branch, does not
rethrow, and performs no recovery. -/
def handlerOnlyPrintsMessage (c : CatchClause) : Prop :=
  c.printsWhat = true ∧ c.printsCode = false ∧ c.branchesOnCode = false ∧
    c.rethrows = false ∧ c.recovers = false

instance (c : CatchClause) : Decidable (handlerOnlyPrintsMessage c) := by
  unfold handlerOnlyPrintsMessage; infer_instance

/-- One lock-acquisition call in the three concurrency files
(`std_thread.cpp`, `std_shared_timed_mutex.cpp`, `std_latch.cpp`),
transcribed: file, line, the acquisition method used, and whether the
surrounding code branches on the acquisition's result.
`std_thread.cpp` and `std_latch.cpp` contain no lock acquisitions. -/
structure LockCall where
  file : String
  line : Nat
  method : String
  inMain : Bool
  branchesOnResult : Bool
deriving DecidableEq

/-- Every mutex lock-acquisition call in the concurrency files. -/
def concurrencyLockCalls : List LockCall :=
  [ ⟨"std_shared_timed_mutex.cpp", 33, "unique_lock", false, false⟩,
    ⟨"std_shared_timed_mutex.cpp", 50, "shared_lock", false, false⟩,
    ⟨"std_shared_timed_mutex.cpp", 82, "shared_lock", true, false⟩,
    ⟨"std_shared_timed_mutex.cpp", 90, "try_to_lock", true, true⟩,
    ⟨"std_shared_timed_mutex.cpp", 99, "unique_lock", false, false⟩,
    ⟨"std_shared_timed_mutex.cpp", 107, "try_lock_for", true, true⟩,
    ⟨"std_shared_timed_mutex.cpp", 118, "shared_lock", false, false⟩,
    ⟨"std_shared_timed_mutex.cpp", 125, "try_lock_shared_for", true, true⟩ ]

/-- A lock-acquisition method is timed when it blocks for up to a given
duration: `try_lock_for` and `try_lock_shared_for` (the `_until` variants
do not occur in the repository). -/
def timedMethod (m : String) : Bool :=
  m = "try_lock_for" || m = "try_lock_shared_for"

/-- The timed lock-acquisition attempts among the concurrency files. -/
def timedLockCalls : List LockCall :=
  concurrencyLockCalls.filter (fun c => timedMethod c.method)

/-! ### Model of `std_shared_timed_mutex.cpp` (writer side)

`SharedData` holds `int value = 0` and `std::string log`; `add_log`
appends `entry` and then `"\n"` to the log.  `writer_thread(data, id,
num_writes)` renders its thread id into `tid_str` and, `num_writes`
times, under the exclusive lock increments `data.value`, builds
`entry = "Writer " + to_string(id) + " (TID: " + tid_str.substr(0,4) +
") wrote value: " + to_string(data.value)` and calls `data.add_log(entry)`.
Strings are modelled as `List Char`; `std::to_string` of a non-negative
`int` is `Nat.toDigits 10`.  Because every mutation happens under the
exclusive lock, a whole run of the two writers is an arbitrary
interleaving (schedule) of their atomic iterations. -/

/-- The characters of a string literal. -/
def strChars (s : String) : List Char := s.data

/-- `std::to_string` of a non-negative `int`. -/
def natChars (n : Nat) : List Char := Nat.toDigits 10 n

/-- Number of newline characters in a log, as counted by
`std::count(log.begin(), log.end(), '\n')`. -/
def newlines (l : List Char) : Nat := l.count '\n'

/-- The shared resource of `std_shared_timed_mutex.cpp`: `value` and `log`. -/
structure SharedData where
  value : Nat
  log : List Char
deriving DecidableEq

/-- `SharedData::add_log`: appends `entry` and then `"\n"` to the log. -/
def addLog (d : SharedData) (entry : List Char) : SharedData :=
  { d with log := d.log ++ entry ++ ['\n'] }

/-- `tid_str.substr(0,4)` for a thread id rendered as a decimal number. -/
def tidChars (tid : Nat) : List Char := (natChars tid).take 4

/-- The log entry built in one iteration of `writer_thread`. -/
def writerEntry (id : Nat) (tid4 : List Char) (value : Nat) : List Char :=
  strChars "Writer " ++ natChars id ++ strChars " (TID: " ++ tid4 ++
    strChars ") wrote value: " ++ natChars value

/-- One iteration of the `writer_thread` loop body, performed atomically
under the exclusive `unique_lock`: `data.value++` followed by
`data.add_log(entry)` with the entry rendered from the new value. -/
def writerStep (id tid : Nat) (d : SharedData) : SharedData :=
  let v := d.value + 1
  addLog { d with value := v } (writerEntry id (tidChars tid) v)

/-- A run of the two writer threads of `main` under an arbitrary
interleaving: `true` schedules one iteration of writer 1 (thread id
`tid1`), `false` one iteration of writer 2 (thread id `tid2`). -/
def runSchedule (tid1 tid2 : Nat) : List Bool → SharedData → SharedData
  | [], d => d
  | b :: rest, d =>
      runSchedule tid1 tid2 rest
        (writerStep (if b then 1 else 2) (if b then tid1 else tid2) d)

/-- `SharedData shared_resource;` — the initial shared state of `main`. -/
def initShared : SharedData := ⟨0, []⟩

/-! ### Environment-dependent output fragments (for the determinism claim) -/

/-- `sum_vector(v, result)`: sums the elements of `v` into `current_sum`
and stores it through the `result` reference; modelled as returning the
stored value. -/
def sum_vector (v : List Int) : Int :=
  v.foldl (fun current_sum val => current_sum + val) 0

/-- `data_to_sum`: a 1000-element vector filled by `std::iota` with
`1, 2, ..., 1000`. -/
def data_to_sum : List Int :=
  (List.range 1000).map (fun (i : Nat) => (i : Int) + 1)

/-- The caller's `sum_result` variable after `t_sum.join()`: the join
orders the thread's store before the read, so the variable holds exactly
what `sum_vector` stored. -/
def sum_result : Int := sum_vector data_to_sum

/-! ### Model of `std_filesystem.cpp` (success path)

The filesystem is modelled as the list of existing entry paths.  Creation
prepends a path not yet present; `fs::remove` deletes one path;
`fs::remove_all` deletes a directory and everything below it. -/

/-- `q` is `dir` itself or lies strictly below directory `dir`. -/
def underDir (dir q : String) : Bool :=
  q == dir || (dir ++ "/").data.isPrefixOf q.data

/-- Creating an entry (directory or file): no-op when it already exists. -/
def createPath (fs : List String) (p : String) : List String :=
  if p ∈ fs then fs else p :: fs

/-- `fs::remove`: deletes the single entry `p`. -/
def removePath (fs : List String) (p : String) : List String :=
  fs.filter (fun q => q != p)

/-- `fs::remove_all`: recursively deletes `dir` and its contents. -/
def removeAllDir (fs : List String) (dir : String) : List String :=
  fs.filter (fun q => !underDir dir q)

/-- `fs::path testDir = "./my_test_dir";` -/
def testDir : String := "./my_test_dir"

/-- First level of `nestedDir = testDir / "subdir1" / "subdir2"`. -/
def subdir1 : String := "./my_test_dir/subdir1"

/-- `nestedDir`, the nested directory created by `create_directories`. -/
def nestedDir : String := "./my_test_dir/subdir1/subdir2"

/-- `nestedDir / "dummy.txt"`, created via `std::ofstream`. -/
def dummyPath : String := "./my_test_dir/subdir1/subdir2/dummy.txt"

/-- `fs::path tempFile = "./temp_example_file.txt";` -/
def tempFilePath : String := "./temp_example_file.txt"

/-- The filesystem effect of `main` of `std_filesystem.cpp` on the path
where every operation succeeds, in source order: `create_directory
(testDir)`, `create_directories(nestedDir)`, `ofstream` creates
`dummy.txt`, `fs::remove(dummy.txt)`, `fs::remove_all(testDir)`,
`ofstream` creates `tempFile`, `fs::remove(tempFile)`.  Directory
iteration and property queries read the filesystem but do not change it. -/
def fsMain (fs : List String) : List String :=
  let fs := createPath fs testDir
  let fs := createPath fs subdir1
  let fs := createPath fs nestedDir
  let fs := createPath fs dummyPath
  let fs := removePath fs dummyPath
  let fs := removeAllDir fs testDir
  let fs := createPath fs tempFilePath
  removePath fs tempFilePath

/-! ### Helper lemmas -/

theorem digitChar_ne_newline (m : Nat) : Nat.digitChar m ≠ '\n' := by
  by_cases hm : m < 16
  · interval_cases m <;> decide
  · have e0 : m ≠ 0 := by omega
    have e1 : m ≠ 1 := by omega
    have e2 : m ≠ 2 := by omega
    have e3 : m ≠ 3 := by omega
    have e4 : m ≠ 4 := by omega
    have e5 : m ≠ 5 := by omega
    have e6 : m ≠ 6 := by omega
    have e7 : m ≠ 7 := by omega
    have e8 : m ≠ 8 := by omega
    have e9 : m ≠ 9 := by omega
    have ea : m ≠ 10 := by omega
    have eb : m ≠ 11 := by omega
    have ec : m ≠ 12 := by omega
    have ed : m ≠ 13 := by omega
    have ee : m ≠ 14 := by omega
    have ef : m ≠ 15 := by omega
    unfold Nat.digitChar
    rw [if_neg e0, if_neg e1, if_neg e2, if_neg e3, if_neg e4, if_neg e5,
      if_neg e6, if_neg e7, if_neg e8, if_neg e9, if_neg ea, if_neg eb,
      if_neg ec, if_neg ed, if_neg ee, if_neg ef]
    decide

theorem mem_toDigitsCore {b fuel n : Nat} {ds : List Char} {c : Char}
    (h : c ∈ Nat.toDigitsCore b fuel n ds) :
    c ∈ ds ∨ ∃ m, c = Nat.digitChar m := by
  induction fuel generalizing n ds with
  | zero => exact Or.inl h
  | succ fuel ih =>
    simp only [Nat.toDigitsCore] at h
    split at h
    · rcases List.mem_cons.mp h with h | h
      · exact Or.inr ⟨n % b, h⟩
      · exact Or.inl h
    · rcases ih h with h | h
      · rcases List.mem_cons.mp h with h | h
        · exact Or.inr ⟨n % b, h⟩
        · exact Or.inl h
      · exact Or.inr h

theorem newline_not_mem_natChars (n : Nat) : '\n' ∉ natChars n := by
  intro h
  unfold natChars Nat.toDigits at h
  rcases mem_toDigitsCore h with h | ⟨m, hm⟩
  · simp at h
  · exact digitChar_ne_newline m hm.symm

theorem newline_not_mem_tidChars (t : Nat) : '\n' ∉ tidChars t :=
  fun h => newline_not_mem_natChars t (List.mem_of_mem_take h)

theorem newline_not_mem_writerEntry (id t v : Nat) :
    '\n' ∉ writerEntry id (tidChars t) v := by
  unfold writerEntry
  intro h
  simp only [List.mem_append] at h
  rcases h with ((((h | h) | h) | h) | h) | h
  · exact absurd h (by decide)
  · exact newline_not_mem_natChars id h
  · exact absurd h (by decide)
  · exact newline_not_mem_tidChars t h
  · exact absurd h (by decide)
  · exact newline_not_mem_natChars v h

theorem newlines_addLog (d : SharedData) (entry : List Char)
    (h : '\n' ∉ entry) :
    newlines (addLog d entry).log = newlines d.log + 1 := by
  simp [addLog, newlines, List.count_append, List.count_eq_zero_of_not_mem h]

theorem writerStep_value (id t : Nat) (d : SharedData) :
    (writerStep id t d).value = d.value + 1 := rfl

theorem writerStep_log (id t : Nat) (d : SharedData) :
    ∃ entry, '\n' ∉ entry ∧ (writerStep id t d).log = d.log ++ entry ++ ['\n'] :=
  ⟨writerEntry id (tidChars t) (d.value + 1),
    newline_not_mem_writerEntry id t (d.value + 1), rfl⟩

theorem writerStep_newlines (id t : Nat) (d : SharedData) :
    newlines (writerStep id t d).log = newlines d.log + 1 :=
  newlines_addLog _ _ (newline_not_mem_writerEntry id t (d.value + 1))

theorem runSchedule_value (t1 t2 : Nat) (sched : List Bool) (d : SharedData) :
    (runSchedule t1 t2 sched d).value = d.value + sched.length := by
  induction sched generalizing d with
  | nil => simp [runSchedule]
  | cons b rest ih =>
    simp only [runSchedule, ih, writerStep_value, List.length_cons]
    omega

theorem runSchedule_newlines (t1 t2 : Nat) (sched : List Bool) (d : SharedData) :
    newlines (runSchedule t1 t2 sched d).log = newlines d.log + sched.length := by
  induction sched generalizing d with
  | nil => simp [runSchedule]
  | cons b rest ih =>
    simp only [runSchedule, ih, writerStep_newlines, List.length_cons]
    omega

theorem length_eq_counts (l : List Bool) :
    l.length = l.count true + l.count false := by
  induction l with
  | nil => rfl
  | cons b rest ih =>
    rw [List.length_cons, ih]
    cases b
    · rw [List.count_cons_of_ne (by decide), List.count_cons_self]
      omega
    · rw [List.count_cons_self, List.count_cons_of_ne (by decide)]
      omega

theorem foldl_add_eq (v : List Int) (a : Int) :
    v.foldl (fun current_sum val => current_sum + val) a = a + v.sum := by
  induction v generalizing a with
  | nil => simp
  | cons x xs ih => simp [List.foldl_cons, ih, List.sum_cons]; ring

theorem range_sum_two_mul (n : Nat) :
    2 * ((List.range n).map (fun (i : Nat) => (i : Int) + 1)).sum
      = (n : Int) * (n + 1) := by
  induction n with
  | zero => simp
  | succ n ih =>
    rw [List.range_succ, List.map_append, List.sum_append]
    simp only [List.map_cons, List.map_nil, List.sum_cons, List.sum_nil]
    push_cast
    linear_combination ih

theorem sum_vector_eq_sum (v : List Int) : sum_vector v = v.sum := by
  unfold sum_vector
  rw [foldl_add_eq]
  ring

theorem sum_result_eq : sum_result = 500500 := by
  unfold sum_result data_to_sum
  rw [sum_vector_eq_sum]
  have h := range_sum_two_mul 1000
  have h2 : ((1000 : Nat) : Int) * (((1000 : Nat) : Int) + 1) = 1001000 := by norm_num
  rw [h2] at h
  linarith [h]

theorem removePath_cons_self (l : List String) (p : String) :
    removePath (p :: l) p = removePath l p := by
  simp [removePath]

theorem removePath_cons_ne (a : String) (l : List String) (p : String)
    (h : a ≠ p) :
    removePath (a :: l) p = a :: removePath l p := by
  simp [removePath, h]

theorem removePath_of_not_mem (fs : List String) (p : String) (h : p ∉ fs) :
    removePath fs p = fs := by
  unfold removePath
  apply List.filter_eq_self.mpr
  intro q hq
  simp only [bne_iff_ne, ne_eq]
  exact fun hqp => h (hqp ▸ hq)

theorem removeAllDir_cons_under (a : String) (l : List String) (dir : String)
    (h : underDir dir a = true) :
    removeAllDir (a :: l) dir = removeAllDir l dir := by
  simp [removeAllDir, h]

theorem removeAllDir_of_none (fs : List String) (dir : String)
    (h : ∀ q ∈ fs, underDir dir q = false) :
    removeAllDir fs dir = fs := by
  unfold removeAllDir
  apply List.filter_eq_self.mpr
  intro q hq
  simp [h q hq]

theorem fsMain_id (fs : List String)
    (hDir : ∀ q ∈ fs, underDir testDir q = false)
    (hTemp : tempFilePath ∉ fs) :
    fsMain fs = fs := by
  have h1 : testDir ∉ fs := fun h => by
    have := hDir _ h
    rw [show underDir testDir testDir = true from by decide] at this
    exact absurd this (by decide)
  have h2 : subdir1 ∉ fs := fun h => by
    have := hDir _ h
    rw [show underDir testDir subdir1 = true from by decide] at this
    exact absurd this (by decide)
  have h3 : nestedDir ∉ fs := fun h => by
    have := hDir _ h
    rw [show underDir testDir nestedDir = true from by decide] at this
    exact absurd this (by decide)
  have h4 : dummyPath ∉ fs := fun h => by
    have := hDir _ h
    rw [show underDir testDir dummyPath = true from by decide] at this
    exact absurd this (by decide)
  unfold fsMain
  dsimp only
  rw [show createPath fs testDir = testDir :: fs from if_neg h1]
  rw [show createPath (testDir :: fs) subdir1 = subdir1 :: testDir :: fs from
    if_neg (by simp only [List.mem_cons, not_or]; exact ⟨by decide, h2⟩)]
  rw [show createPath (subdir1 :: testDir :: fs) nestedDir
      = nestedDir :: subdir1 :: testDir :: fs from
    if_neg (by simp only [List.mem_cons, not_or]; exact ⟨by decide, by decide, h3⟩)]
  rw [show createPath (nestedDir :: subdir1 :: testDir :: fs) dummyPath
      = dummyPath :: nestedDir :: subdir1 :: testDir :: fs from
    if_neg (by
      simp only [List.mem_cons, not_or]
      exact ⟨by decide, by decide, by decide, h4⟩)]
  rw [removePath_cons_self, removePath_cons_ne _ _ _ (by decide),
    removePath_cons_ne _ _ _ (by decide), removePath_cons_ne _ _ _ (by decide),
    removePath_of_not_mem fs dummyPath h4]
  rw [removeAllDir_cons_under _ _ _ (by decide),
    removeAllDir_cons_under _ _ _ (by decide),
    removeAllDir_cons_under _ _ _ (by decide),
    removeAllDir_of_none fs testDir hDir]
  rw [show createPath fs tempFilePath = tempFilePath :: fs from if_neg hTemp]
  rw [removePath_cons_self, removePath_of_not_mem fs tempFilePath hTemp]

/-! ### Claims -/

/-- C1 counterexample: the claim "no program creates, modifies, or deletes
files or directories" is false — `std_filesystem.cpp` (a repository file)
creates and deletes files and directories (`fs::create_directory`,
`std::ofstream`, `fs::remove`, `fs::remove_all`). -/
theorem repo_frame_effects_refuted :
    ¬ (∀ f ∈ repoFiles, f.mutatesFilesystem = false) := by
  decide

/-- C1 (amended): every example program takes no command-line arguments and
reads no configuration; every program other than `std_filesystem.cpp`
writes only to standard output and never creates, modifies or deletes
files or directories; `std_filesystem.cpp` does create and delete files
and directories during its run (and writes to standard error on failure
paths), but on the path where every filesystem operation succeeds it
removes everything it created before `main` returns. -/
theorem repo_frame_effects :
    (∀ f ∈ repoFiles, f.usesArgv = false ∧ f.readsConfig = false ∧
      (f.name ≠ "std_filesystem.cpp" →
        f.mutatesFilesystem = false ∧ f.writesStderr = false)) ∧
    (∀ fs : List String, (∀ q ∈ fs, underDir testDir q = false) →
      tempFilePath ∉ fs → fsMain fs = fs) :=
  ⟨by decide, fun fs h1 h2 => fsMain_id fs h1 h2⟩

/-- C1 witness: the amended claim applied to `std_thread.cpp` and to a
one-entry working directory. -/
theorem repo_frame_effects_witness :
    ((plainFile "cpp11/standard_library" "std_thread.cpp" 200 11
        "std_thread_example" ["-pthread"]).usesArgv = false ∧
      (plainFile "cpp11/standard_library" "std_thread.cpp" 200 11
        "std_thread_example" ["-pthread"]).readsConfig = false ∧
      ((plainFile "cpp11/standard_library" "std_thread.cpp" 200 11
          "std_thread_example" ["-pthread"]).name ≠ "std_filesystem.cpp" →
        (plainFile "cpp11/standard_library" "std_thread.cpp" 200 11
          "std_thread_example" ["-pthread"]).mutatesFilesystem = false ∧
        (plainFile "cpp11/standard_library" "std_thread.cpp" 200 11
          "std_thread_example" ["-pthread"]).writesStderr = false)) ∧
    fsMain ["./hello.txt"] = ["./hello.txt"] :=
  ⟨repo_frame_effects.1 _ (by decide),
   repo_frame_effects.2 ["./hello.txt"] (by decide) (by decide)⟩

/-- C2 counterexample: the claim that every file is self-contained and
compiles by the single documented `g++ -std=c++NN <file>.cpp -o <name>`
invocation is false — `modules_basic_usage.cpp` imports the module
`math_operations` (whose interface unit `math_module.cppm` is not in the
repository) and its trailing comment documents only a multi-step modular
build whose final link consumes two inputs. -/
theorem compile_self_containment_refuted :
    ¬ (∀ f ∈ repoFiles, selfContained f ∧
        ∃ c ∈ f.trailingCompile, singleFileCmd f c) := by
  decide

/-- C2 (amended): every source file except `modules_basic_usage.cpp` is
self-contained with no dependency on any other file in the repository and
compiles to an independent executable by the single documented
`g++ -std=c++NN <file>.cpp -o <name>` invocation of its trailing comment
(some commands append linker flags such as `-pthread` or `-lstdc++fs`);
`modules_basic_usage.cpp` imports the module `math_operations`, which no
repository file provides, and documents a multi-step compiler-specific
module build instead. -/
theorem compile_self_containment :
    (∀ f ∈ repoFiles, f.name ≠ "modules_basic_usage.cpp" →
      selfContained f ∧ ∃ c ∈ f.trailingCompile, singleFileCmd f c) ∧
    (∀ f ∈ repoFiles, f.name = "modules_basic_usage.cpp" →
      f.moduleImports = ["math_operations"]) := by
  constructor <;> decide

/-- C2 witness: the amended claim applied to `auto.cpp`. -/
theorem compile_self_containment_witness :
    selfContained (plainFile "cpp11/core_language" "auto.cpp" 46 11
      "auto_example" []) ∧
    ∃ c ∈ (plainFile "cpp11/core_language" "auto.cpp" 46 11
      "auto_example" []).trailingCompile,
      singleFileCmd (plainFile "cpp11/core_language" "auto.cpp" 46 11
        "auto_example" []) c :=
  compile_self_containment.1 _ (by decide) (by decide)

/-- C3 counterexample: the claim that every handler only prints the
exception's message is false — the `std_regex.cpp` handler (line 121)
additionally prints `e.code()` and branches on it, and the
`std_filesystem.cpp` handler at line 101 prints a fixed fallback text
instead of the message. -/
theorem catch_clause_discipline_refuted :
    ¬ (∀ c ∈ catchClauses, c.inMain = true ∧ c.exnType ∈ specExnTypes ∧
        handlerOnlyPrintsMessage c) := by
  decide

/-- C3 (amended): error handling consists only of catching the six
standard-library exception types in `try`/`catch` blocks local to the
demonstrating `main`, with no rethrow and no recovery; every handler only
prints, and prints exactly the exception's message, except that the
`std_regex.cpp` handler additionally prints the exception's `code()` with
a fixed diagnostic chosen by branching on it, and the inner
`std_filesystem.cpp` handler at line 101 prints a fixed fallback text
instead of the message. -/
theorem catch_clause_discipline :
    ∀ c ∈ catchClauses, c.inMain = true ∧ c.exnType ∈ specExnTypes ∧
      c.rethrows = false ∧ c.recovers = false ∧
      (c.file ≠ "std_regex.cpp" → ¬ (c.file = "std_filesystem.cpp" ∧ c.line = 101) →
        handlerOnlyPrintsMessage c) ∧
      (c.file = "std_regex.cpp" →
        c.printsWhat = true ∧ c.printsCode = true ∧ c.branchesOnCode = true) ∧
      (c.file = "std_filesystem.cpp" ∧ c.line = 101 →
        c.printsWhat = false ∧ c.printsCode = false ∧ c.branchesOnCode = false) := by
  decide

/-- C3 witness: the amended claim applied to the `std_variant.cpp` clause. -/
theorem catch_clause_discipline_witness :
    (⟨"std_variant.cpp", 83, "std::bad_variant_access", true, true, false,
        false, false, false⟩ : CatchClause).inMain = true ∧
    (⟨"std_variant.cpp", 83, "std::bad_variant_access", true, true, false,
        false, false, false⟩ : CatchClause).exnType ∈ specExnTypes ∧
    (⟨"std_variant.cpp", 83, "std::bad_variant_access", true, true, false,
        false, false, false⟩ : CatchClause).rethrows = false ∧
    (⟨"std_variant.cpp", 83, "std::bad_variant_access", true, true, false,
        false, false, false⟩ : CatchClause).recovers = false ∧
    ((⟨"std_variant.cpp", 83, "std::bad_variant_access", true, true, false,
        false, false, false⟩ : CatchClause).file ≠ "std_regex.cpp" →
      ¬ ((⟨"std_variant.cpp", 83, "std::bad_variant_access", true, true, false,
        false, false, false⟩ : CatchClause).file = "std_filesystem.cpp" ∧
        (⟨"std_variant.cpp", 83, "std::bad_variant_access", true, true, false,
        false, false, false⟩ : CatchClause).line = 101) →
      handlerOnlyPrintsMessage
        (⟨"std_variant.cpp", 83, "std::bad_variant_access", true, true, false,
          false, false, false⟩ : CatchClause)) ∧
    ((⟨"std_variant.cpp", 83, "std::bad_variant_access", true, true, false,
        false, false, false⟩ : CatchClause).file = "std_regex.cpp" →
      (⟨"std_variant.cpp", 83, "std::bad_variant_access", true, true, false,
        false, false, false⟩ : CatchClause).printsWhat = true ∧
      (⟨"std_variant.cpp", 83, "std::bad_variant_access", true, true, false,
        false, false, false⟩ : CatchClause).printsCode = true ∧
      (⟨"std_variant.cpp", 83, "std::bad_variant_access", true, true, false,
        false, false, false⟩ : CatchClause).branchesOnCode = true) ∧
    ((⟨"std_variant.cpp", 83, "std::bad_variant_access", true, true, false,
        false, false, false⟩ : CatchClause).file = "std_filesystem.cpp" ∧
      (⟨"std_variant.cpp", 83, "std::bad_variant_access", true, true, false,
        false, false, false⟩ : CatchClause).line = 101 →
      (⟨"std_variant.cpp", 83, "std::bad_variant_access", true, true, false,
        false, false, false⟩ : CatchClause).printsWhat = false ∧
      (⟨"std_variant.cpp", 83, "std::bad_variant_access", true, true, false,
        false, false, false⟩ : CatchClause).printsCode = false ∧
      (⟨"std_variant.cpp", 83, "std::bad_variant_access", true, true, false,
        false, false, false⟩ : CatchClause).branchesOnCode = false) :=
  catch_clause_discipline _ (by decide)

/-- C4 counterexample: the claim that no file except `inline_variables.cpp`
introduces global mutable state is false — `return_type_deduction.cpp`
defines the namespace-scope mutable variables `global_var` (line 37) and
`my_vector` (line 59), and `nested_namespaces.cpp` defines the mutable
`A::B::C::D::deep_value` (line 40). -/
theorem global_mutable_state_refuted :
    ¬ (∀ f ∈ repoFiles, f.name ≠ "inline_variables.cpp" →
        f.globalMutables = []) := by
  decide

/-- C4 (amended): no file introduces global mutable state except
`inline_variables.cpp`, where global state is the pedagogical subject,
`return_type_deduction.cpp`, whose globals `global_var` and `my_vector`
support its `decltype(auto)` demonstration, and `nested_namespaces.cpp`,
whose namespace-scope variable `A::B::C::D::deep_value` (defined at line
40 and reassigned in `main` at line 75) demonstrates access through a
deeply nested namespace. -/
theorem global_mutable_state :
    (∀ f ∈ repoFiles, f.name ≠ "inline_variables.cpp" →
      f.name ≠ "return_type_deduction.cpp" →
      f.name ≠ "nested_namespaces.cpp" → f.globalMutables = []) ∧
    (∀ f ∈ repoFiles, f.name = "return_type_deduction.cpp" →
      f.globalMutables = ["global_var", "my_vector"]) ∧
    (∀ f ∈ repoFiles, f.name = "nested_namespaces.cpp" →
      f.globalMutables = ["A::B::C::D::deep_value"]) := by
  refine ⟨by decide, by decide, by decide⟩

/-- C4 witness: the amended claim applied to `std_latch.cpp`. -/
theorem global_mutable_state_witness :
    (plainFile "cpp20/standard_library" "std_latch.cpp" 172 20
      "std_latch_example" ["-pthread"]).globalMutables = [] :=
  global_mutable_state.1 _ (by decide) (by decide) (by decide) (by decide)

/-- C5 counterexample: the claim that exactly one timed lock-acquisition
attempt appears across the concurrency files is false — there are two:
`try_lock_for` at `std_shared_timed_mutex.cpp:107` and
`try_lock_shared_for` at line 125. -/
theorem timed_lock_attempts_refuted :
    ¬ (timedLockCalls.length = 1) := by
  decide

/-- C5 (amended): across the concurrency files there are exactly two timed
lock-acquisition attempts — one illustrative `try_lock_for` call and one
illustrative `try_lock_shared_for` call, both in `main` of
`std_shared_timed_mutex.cpp`, each branching once on its result — and no
other lock-acquisition control flow branches on a lock timeout (the only
other branching acquisition, `try_to_lock` at line 90, is untimed). -/
theorem timed_lock_attempts :
    timedLockCalls.length = 2 ∧
    timedLockCalls =
      [⟨"std_shared_timed_mutex.cpp", 107, "try_lock_for", true, true⟩,
       ⟨"std_shared_timed_mutex.cpp", 125, "try_lock_shared_for", true, true⟩] ∧
    (∀ c ∈ concurrencyLockCalls,
      c.branchesOnResult = true → timedMethod c.method = false →
        c.method = "try_to_lock") := by
  refine ⟨by decide, by decide, by decide⟩

/-- C5 witness: the universally quantified part of the amended claim
applied to the `try_to_lock` acquisition at line 90. -/
theorem timed_lock_attempts_witness :
    (⟨"std_shared_timed_mutex.cpp", 90, "try_to_lock", true, true⟩
        : LockCall).method = "try_to_lock" :=
  timed_lock_attempts.2.2 _ (by decide) (by decide) (by decide)

/-- The three concurrency-related files named by the specification. -/
def concurrencyFileNames : List String :=
  ["std_thread.cpp", "std_shared_timed_mutex.cpp", "std_latch.cpp"]

/-- C6 counterexample: the claim that each concurrency file is under 200
lines is false — `std_thread.cpp` is exactly 200 lines long. -/
theorem concurrency_line_counts_refuted :
    ¬ (∀ f ∈ repoFiles, f.name ∈ concurrencyFileNames →
        f.lineCount < 200) := by
  decide

/-- C6 (amended): each of the three concurrency files is at most 200 lines
long: `std_shared_timed_mutex.cpp` (195 lines) and `std_latch.cpp`
(172 lines) are under 200 lines, and `std_thread.cpp` is exactly 200. -/
theorem concurrency_line_counts :
    (∀ f ∈ repoFiles, f.name ∈ concurrencyFileNames → f.lineCount ≤ 200) ∧
    (∀ f ∈ repoFiles, f.name = "std_thread.cpp" → f.lineCount = 200) ∧
    (∀ f ∈ repoFiles,
      f.name = "std_shared_timed_mutex.cpp" ∨ f.name = "std_latch.cpp" →
        f.lineCount < 200) := by
  refine ⟨by decide, by decide, by decide⟩

/-- C6 witness: the amended claim applied to `std_latch.cpp`. -/
theorem concurrency_line_counts_witness :
    (plainFile "cpp20/standard_library" "std_latch.cpp" 172 20
      "std_latch_example" ["-pthread"]).lineCount ≤ 200 :=
  concurrency_line_counts.1 _ (by decide) (by decide)

/-- C8: each writer iteration, performed under the exclusive lock,
increments `value` by exactly 1 and appends exactly one newline-terminated
entry to `log`; after the two writers (3 and 2 writes) finish, under any
interleaving of their atomic iterations, `shared_resource.value` equals 5
and equals the number of newline characters in `shared_resource.log`. -/
theorem writer_invariant_final_counts (tid1 tid2 : Nat) (sched : List Bool)
    (h1 : sched.count true = 3) (h2 : sched.count false = 2) :
    (∀ id t : Nat, ∀ d : SharedData,
      (writerStep id t d).value = d.value + 1 ∧
      ∃ entry, '\n' ∉ entry ∧
        (writerStep id t d).log = d.log ++ entry ++ ['\n']) ∧
    (runSchedule tid1 tid2 sched initShared).value = 5 ∧
    newlines (runSchedule tid1 tid2 sched initShared).log = 5 ∧
    (runSchedule tid1 tid2 sched initShared).value
      = newlines (runSchedule tid1 tid2 sched initShared).log := by
  have l1 : sched.length = 5 := by rw [length_eq_counts, h1, h2]
  have hv : (runSchedule tid1 tid2 sched initShared).value = 5 := by
    rw [runSchedule_value, l1]
    rfl
  have hn : newlines (runSchedule tid1 tid2 sched initShared).log = 5 := by
    rw [runSchedule_newlines, l1]
    rfl
  exact ⟨fun id t d => ⟨writerStep_value id t d, writerStep_log id t d⟩,
    hv, hn, hv.trans hn.symm⟩

/-- C8 witness: the invariant applied to a concrete interleaving of the
3-write and 2-write writers with concrete thread ids. -/
theorem writer_invariant_final_counts_witness :
    ([true, true, false, true, false] : List Bool).count true = 3 ∧
    ([true, true, false, true, false] : List Bool).count false = 2 ∧
    (runSchedule 1234 5678 [true, true, false, true, false]
      initShared).value = 5 ∧
    newlines (runSchedule 1234 5678 [true, true, false, true, false]
      initShared).log = 5 :=
  ⟨by decide, by decide,
    (writer_invariant_final_counts 1234 5678 _ (by decide) (by decide)).2.1,
    (writer_invariant_final_counts 1234 5678 _ (by decide) (by decide)).2.2.1⟩

/-- C9: `sum_vector` stores into its result reference exactly the sum of
its input vector's elements — for every input vector the caller's
variable, read after the join, equals that sum — and for the iota-filled
vector `1..1000` of `main`, `sum_result` equals 500500. -/
theorem sum_vector_correct :
    (∀ v : List Int, sum_vector v = v.sum) ∧ sum_result = 500500 :=
  ⟨sum_vector_eq_sum, sum_result_eq⟩

/-- C10: on the path where every filesystem operation succeeds, `main` of
`std_filesystem.cpp` removes every file and directory it creates (the
`my_test_dir` tree including `dummy.txt`, and `temp_example_file.txt`)
before returning, leaving the set of entries of the working directory
unchanged. -/
theorem filesystem_cleanup (fs : List String)
    (hDir : ∀ q ∈ fs, underDir testDir q = false)
    (hTemp : tempFilePath ∉ fs) :
    fsMain fs = fs :=
  fsMain_id fs hDir hTemp

/-- C10 witness: the cleanup property on a concrete two-entry working
directory. -/
theorem filesystem_cleanup_witness :
    fsMain ["./notes.txt", "./bin"] = ["./notes.txt", "./bin"] :=
  filesystem_cleanup ["./notes.txt", "./bin"] (by decide) (by decide)

end HelloWorldCpp
